import Mathlib

/-!
Verification of the minilibx Rust wrapper (src/mlx/src/ffi.rs, src/mlx/src/lib.rs)
and the Julia-set demo (src/src/main.rs).

Modelling choices:
- Raw native pointers are modelled as integers, with 0 standing for the null
  pointer; the Rust code only ever tests pointers for nullness.
- The native library is modelled as an oracle `NativeEnv`: for every native
  entry point whose return value the wrapper inspects, the environment gives
  the value returned as a function of the arguments passed.
- Every wrapper operation returns its result together with a trace, the list
  of native calls it performed in order.  An empty trace states that an error
  was produced before any native call.
- Rust `&str` values are Lean `String`s; `CString::new` fails exactly when the
  string contains an interior null byte, which for UTF-8 text is exactly when
  it contains the character with code point 0.
- The byte buffer behind an image is modelled as a total map from addresses to
  byte values; `MlxImage::write_to` updates one address of that map.
- In the demo, the `f32` iteration state of `julia` is abstracted to an opaque
  type with an arbitrary escape test and step function: the termination and
  iteration-count properties of the loop depend only on the integer counter,
  so they hold for every choice of the floating-point dynamics.
-/

namespace Fractol

/-- Native pointers, as plain addresses; 0 is the null pointer. -/
abbrev Ptr := Int

/-- Enum for detecting errors in the minilibx (MlxError in ffi.rs). -/
inductive MlxError where
  /-- Error that could happen when mlx_init returns a null pointer. -/
  | Init : MlxError
  /-- Error that could happen when mlx_new_window returns a null pointer. -/
  | Window : MlxError
  /-- Error that might happen in all other places, with a message. -/
  | Any : String → MlxError
deriving DecidableEq

/-- A UTF-8 string contains an interior null byte exactly when it contains the
character with code point 0. -/
def containsNull (s : String) : Bool := s.data.contains (Char.ofNat 0)

/-- create_c_str in ffi.rs: CString::new succeeds unless the string has an
interior null byte; on failure the error carries the offending string. -/
def create_c_str (s : String) : Except MlxError String :=
  if containsNull s then .error (.Any ("Error creating string " ++ s)) else .ok s

/-- The data returned by mlx_get_data_addr (AddrData in ffi.rs). -/
structure AddrData where
  area : Ptr
  bits_per_pixel : Int
  size_line : Int
  endian : Int

/-- The result of the native xpm decoders (XpmImage in ffi.rs). -/
structure XpmImage where
  ptr : Ptr
  width : Int
  height : Int
deriving DecidableEq

/-- One native call performed by the wrapper, with the arguments passed. -/
inductive NativeCall where
  | init
  | newWindow (mlx : Ptr) (sizeX sizeY : Int) (title : String)
  | stringPut (mlx win : Ptr) (x y color : Int) (s : String)
  | newImage (mlx : Ptr) (w h : Int)
  | getDataAddr (img : Ptr)
  | xpmToImage (mlx : Ptr) (data : List String)
  | xpmFileToImage (mlx : Ptr) (filename : String)
  | destroyWindow (mlx win : Ptr)
  | destroyImage (mlx img : Ptr)
deriving DecidableEq

/-- True on the image-buffer-query native call only. -/
def NativeCall.isDataQuery : NativeCall → Bool
  | .getDataAddr _ => true
  | _ => false

/-- Oracle for the native library: the value each inspected native entry point
returns, as a function of the arguments the wrapper passes to it. -/
structure NativeEnv where
  initRet : Ptr
  newWindowRet : Ptr → Int → Int → String → Ptr
  newImageRet : Ptr → Int → Int → Ptr
  getDataAddrRet : Ptr → AddrData
  xpmToImageRet : Ptr → List String → XpmImage
  xpmFileToImageRet : Ptr → String → XpmImage

/-- ffi::init — calls mlx_init, Err(Init) exactly on a null return. -/
def ffi.init (env : NativeEnv) : Except MlxError Ptr × List NativeCall :=
  (if env.initRet = 0 then .error .Init else .ok env.initRet, [.init])

/-- ffi::new_window — converts the title to a C string (failing first, before
any native call, on interior nulls), then calls mlx_new_window and returns
Err(Window) exactly on a null return. -/
def ffi.new_window (env : NativeEnv) (mlx_ptr : Ptr) (size_x size_y : Int)
    (title : String) : Except MlxError Ptr × List NativeCall :=
  match create_c_str title with
  | .error e => (.error e, [])
  | .ok t =>
    (if env.newWindowRet mlx_ptr size_x size_y t = 0 then .error .Window
     else .ok (env.newWindowRet mlx_ptr size_x size_y t),
     [.newWindow mlx_ptr size_x size_y t])

/-- ffi::string_put — converts the text to a C string (failing first, before
any native call, on interior nulls), then calls mlx_string_put, whose return
code is ignored. -/
def ffi.string_put (mlx_ptr win_ptr : Ptr) (x y color : Int) (s : String) :
    Except MlxError Unit × List NativeCall :=
  match create_c_str s with
  | .error e => (.error e, [])
  | .ok t => (.ok (), [.stringPut mlx_ptr win_ptr x y color t])

/-- The error message ffi::new_image formats on a null return: it names the
requested width and height. -/
def imageErrorMsg (width height : Int) : String :=
  "Error creating image with " ++ toString width ++ " width, " ++
    toString height ++ " height."

/-- ffi::new_image — calls mlx_new_image; on a null return fails with a
message naming the requested width and height. -/
def ffi.new_image (env : NativeEnv) (mlx_ptr : Ptr) (width height : Int) :
    Except MlxError Ptr × List NativeCall :=
  (if env.newImageRet mlx_ptr width height = 0 then
     .error (.Any (imageErrorMsg width height))
   else .ok (env.newImageRet mlx_ptr width height),
   [.newImage mlx_ptr width height])

/-- ffi::get_data_addr — calls mlx_get_data_addr; fails when the returned
buffer address is null, otherwise returns the buffer address together with
bits_per_pixel, size_line and the endian flag. -/
def ffi.get_data_addr (env : NativeEnv) (img_ptr : Ptr) :
    Except MlxError AddrData × List NativeCall :=
  (if (env.getDataAddrRet img_ptr).area = 0 then
     .error (.Any "Error when trying to access image data")
   else .ok (env.getDataAddrRet img_ptr),
   [.getDataAddr img_ptr])

/-- ffi::xpm_to_image — calls mlx_xpm_to_image; fails on a null return. -/
def ffi.xpm_to_image (env : NativeEnv) (mlx_ptr : Ptr) (xpm_data : List String) :
    Except MlxError XpmImage × List NativeCall :=
  (if (env.xpmToImageRet mlx_ptr xpm_data).ptr = 0 then
     .error (.Any "Error creating xpm image.")
   else .ok (env.xpmToImageRet mlx_ptr xpm_data),
   [.xpmToImage mlx_ptr xpm_data])

/-- ffi::xpm_file_to_image — converts the filename to a C string (failing
first, before any native call, on interior nulls), then calls
mlx_xpm_file_to_image and fails on a null return. -/
def ffi.xpm_file_to_image (env : NativeEnv) (mlx_ptr : Ptr) (filename : String) :
    Except MlxError XpmImage × List NativeCall :=
  match create_c_str filename with
  | .error e => (.error e, [])
  | .ok f =>
    (if (env.xpmFileToImageRet mlx_ptr f).ptr = 0 then
       .error (.Any "Error creating xpm image.")
     else .ok (env.xpmFileToImageRet mlx_ptr f),
     [.xpmFileToImage mlx_ptr f])

/-- ffi::destroy_window — fire-and-forget native call, return code ignored. -/
def ffi.destroy_window (mlx_ptr win_ptr : Ptr) : Unit × List NativeCall :=
  ((), [.destroyWindow mlx_ptr win_ptr])

/-- ffi::destroy_image — fire-and-forget native call, return code ignored. -/
def ffi.destroy_image (mlx_ptr img_ptr : Ptr) : Unit × List NativeCall :=
  ((), [.destroyImage mlx_ptr img_ptr])

/-- Api method holder (Mlx in lib.rs), wrapping the connection pointer. -/
structure Mlx where
  mlx_ptr : Ptr
deriving DecidableEq

/-- Window handle (MlxWindow in lib.rs), wrapping the window pointer. -/
structure MlxWindow where
  win_ptr : Ptr
deriving DecidableEq

/-- Endianness of image data (Endian in lib.rs). -/
inductive Endian where
  | Little : Endian
  | Big : Endian
deriving DecidableEq

/-- Image handle (MlxImage in lib.rs): the image pointer plus the attributes
cached at construction time. -/
structure MlxImage where
  img_ptr : Ptr
  width : Int
  height : Int
  area_start : Ptr
  bits_per_pixel : Int
  size_line : Int
  endian : Endian
deriving DecidableEq

/-- Mlx::new — ffi::init with the resulting pointer wrapped in the handle. -/
def Mlx.new (env : NativeEnv) : Except MlxError Mlx × List NativeCall :=
  match ffi.init env with
  | (.error e, t) => (.error e, t)
  | (.ok p, t) => (.ok ⟨p⟩, t)

/-- Mlx::new_window — ffi::new_window with the resulting pointer wrapped. -/
def Mlx.new_window (env : NativeEnv) (mlx : Mlx) (size_x size_y : Int)
    (title : String) : Except MlxError MlxWindow × List NativeCall :=
  match ffi.new_window env mlx.mlx_ptr size_x size_y title with
  | (.error e, t) => (.error e, t)
  | (.ok p, t) => (.ok ⟨p⟩, t)

/-- Mlx::string_put — delegates to ffi::string_put. -/
def Mlx.string_put (mlx : Mlx) (window : MlxWindow) (x y color : Int)
    (s : String) : Except MlxError Unit × List NativeCall :=
  ffi.string_put mlx.mlx_ptr window.win_ptr x y color s

/-- MlxImage::new — queries the native buffer via ffi::get_data_addr and
caches the buffer address, bits_per_pixel, size_line and endianness in the
handle; endian flag 1 means big-endian, anything else little-endian. -/
def MlxImage.new (env : NativeEnv) (img_ptr : Ptr) (width height : Int) :
    Except MlxError MlxImage × List NativeCall :=
  match ffi.get_data_addr env img_ptr with
  | (.error e, t) => (.error e, t)
  | (.ok d, t) =>
    (.ok ⟨img_ptr, width, height, d.area, d.bits_per_pixel, d.size_line,
      if d.endian = 1 then .Big else .Little⟩, t)

/-- Mlx::new_image — ffi::new_image then MlxImage::new on its pointer. -/
def Mlx.new_image (env : NativeEnv) (mlx : Mlx) (width height : Int) :
    Except MlxError MlxImage × List NativeCall :=
  match ffi.new_image env mlx.mlx_ptr width height with
  | (.error e, t) => (.error e, t)
  | (.ok p, t) =>
    match MlxImage.new env p width height with
    | (.error e, u) => (.error e, t ++ u)
    | (.ok img, u) => (.ok img, t ++ u)

/-- Mlx::xpm_to_image — ffi::xpm_to_image then MlxImage::new on its result. -/
def Mlx.xpm_to_image (env : NativeEnv) (mlx : Mlx) (xpm_data : List String) :
    Except MlxError MlxImage × List NativeCall :=
  match ffi.xpm_to_image env mlx.mlx_ptr xpm_data with
  | (.error e, t) => (.error e, t)
  | (.ok r, t) =>
    match MlxImage.new env r.ptr r.width r.height with
    | (.error e, u) => (.error e, t ++ u)
    | (.ok img, u) => (.ok img, t ++ u)

/-- Mlx::xpm_file_to_image — ffi::xpm_file_to_image then MlxImage::new. -/
def Mlx.xpm_file_to_image (env : NativeEnv) (mlx : Mlx) (filename : String) :
    Except MlxError MlxImage × List NativeCall :=
  match ffi.xpm_file_to_image env mlx.mlx_ptr filename with
  | (.error e, t) => (.error e, t)
  | (.ok r, t) =>
    match MlxImage.new env r.ptr r.width r.height with
    | (.error e, u) => (.error e, t ++ u)
    | (.ok img, u) => (.ok img, t ++ u)

/-- Mlx::destroy_window — the Rust method takes the handle by shared
reference, performs the fire-and-forget native destroy, and ends with a
no-op drop of the reference; the caller-held handle value after the call is
the unchanged input value, returned here explicitly. -/
def Mlx.destroy_window (mlx : Mlx) (window : MlxWindow) :
    MlxWindow × List NativeCall :=
  (window, (ffi.destroy_window mlx.mlx_ptr window.win_ptr).2)

/-- Mlx::destroy_image — same shape as destroy_window: fire-and-forget
native destroy on the wrapped pointers, caller-held handle value unchanged. -/
def Mlx.destroy_image (mlx : Mlx) (image : MlxImage) :
    MlxImage × List NativeCall :=
  (image, (ffi.destroy_image mlx.mlx_ptr image.img_ptr).2)

/-- Byte memory behind image buffers: a byte value at every address. -/
abbrev Mem := Int → Nat

/-- MlxImage::write_to — stores one byte at area_start + offset; the stored
byte is the low 8 bits of the value (the parameter is a u8).  No bounds
check of any kind is performed on the offset. -/
def MlxImage.write_to (img : MlxImage) (offset : Int) (value : Nat)
    (mem : Mem) : Mem :=
  fun a => if a = img.area_start + offset then value % 256 else mem a

/-- MAX_ITERATIONS in main.rs. -/
def MAX_ITERATIONS : Nat := 110

/-- The while loop of julia in main.rs, with the f32 state abstracted: `inS`
is the escape test (zx * zx + zy * zy < 4.0) and `step` the body update of
(zx, zy).  The loop runs while the state passes the test and the counter
exceeds 1, decrementing the counter by exactly 1 each iteration; it returns
the final state and counter. -/
def juliaLoop {Z : Type} (inS : Z → Bool) (step : Z → Z) : Nat → Z → Z × Nat
  | 0, z => (z, 0)
  | 1, z => (z, 1)
  | i + 2, z =>
    if inS z then juliaLoop inS step (i + 1) (step z) else (z, i + 2)

/-- Number of iterations the julia loop performs from a given start counter:
the counter decreases by exactly 1 per iteration, so it is the start counter
minus the final counter. -/
def juliaIterations {Z : Type} (inS : Z → Bool) (step : Z → Z) (i : Nat)
    (z : Z) : Nat :=
  i - (juliaLoop inS step i z).2

/-- julia in main.rs: run the loop from MAX_ITERATIONS, then pack the final
counter into an RGB color; the u8 casts of r, g, b keep the low 8 bits, and
the color is r, g, b packed into one 32-bit value. -/
def julia {Z : Type} (inS : Z → Bool) (step : Z → Z) (z0 : Z) : Nat :=
  let i := (juliaLoop inS step MAX_ITERATIONS z0).2
  let r := (i <<< 3) % 256
  let g := (i <<< 5) % 256
  let b := (i * 4) % 256
  ((r <<< 16) ||| (g <<< 8)) ||| b

/-- The image handle MlxImage::new builds for a given image pointer and
dimensions: the buffer attributes queried from the native library are cached
in the handle, with endian flag 1 mapped to big-endian and anything else to
little-endian. -/
def cachedImage (env : NativeEnv) (p : Ptr) (width height : Int) : MlxImage :=
  ⟨p, width, height, (env.getDataAddrRet p).area,
    (env.getDataAddrRet p).bits_per_pixel, (env.getDataAddrRet p).size_line,
    if (env.getDataAddrRet p).endian = 1 then .Big else .Little⟩

/-- Sample oracle whose native calls all succeed with distinct pointers. -/
def okEnv : NativeEnv where
  initRet := 5
  newWindowRet := fun _ _ _ _ => 7
  newImageRet := fun _ _ _ => 9
  getDataAddrRet := fun _ => ⟨11, 32, 4352, 0⟩
  xpmToImageRet := fun _ _ => ⟨13, 8, 8⟩
  xpmFileToImageRet := fun _ _ => ⟨15, 8, 8⟩

/-- Sample oracle whose native calls all return null. -/
def nullEnv : NativeEnv where
  initRet := 0
  newWindowRet := fun _ _ _ _ => 0
  newImageRet := fun _ _ _ => 0
  getDataAddrRet := fun _ => ⟨0, 0, 0, 0⟩
  xpmToImageRet := fun _ _ => ⟨0, 0, 0⟩
  xpmFileToImageRet := fun _ _ => ⟨0, 0, 0⟩

/-- Sample image handle for concrete instantiations. -/
def imgA : MlxImage := ⟨9, 1080, 720, 11, 32, 4352, .Little⟩

/-- All-zero byte memory. -/
def memZero : Mem := fun _ => 0

/-- Helper: when the buffer query returns a non-null address, MlxImage::new
succeeds with the cached handle and performs exactly the query call. -/
theorem MlxImage.new_of_area_ne (env : NativeEnv) (p : Ptr) (width height : Int)
    (ha : (env.getDataAddrRet p).area ≠ 0) :
    MlxImage.new env p width height =
      (.ok (cachedImage env p width height), [.getDataAddr p]) := by
  simp [MlxImage.new, ffi.get_data_addr, ha, cachedImage]

/-- Helper: when the buffer query returns a null address, MlxImage::new fails
with the descriptive error, performing exactly the query call. -/
theorem MlxImage.new_of_area_eq (env : NativeEnv) (p : Ptr) (width height : Int)
    (ha : (env.getDataAddrRet p).area = 0) :
    MlxImage.new env p width height =
      (.error (.Any "Error when trying to access image data"),
       [.getDataAddr p]) := by
  simp [MlxImage.new, ffi.get_data_addr, ha]

/-- C1: Mlx::new returns MlxError::Init exactly when the native
connection-init call returns a null pointer; on a non-null return it succeeds
with a handle wrapping that pointer, and Init is the only error it can
produce. -/
theorem mlx_new_init_error_iff_null (env : NativeEnv) :
    ((Mlx.new env).1 = .error .Init ↔ env.initRet = 0) ∧
    (env.initRet ≠ 0 → (Mlx.new env).1 = .ok ⟨env.initRet⟩) ∧
    (∀ e : MlxError, (Mlx.new env).1 = .error e → e = .Init) := by
  by_cases h : env.initRet = 0 <;> simp [Mlx.new, ffi.init, h]

/-- Witness for C1 at a concrete oracle: non-null init pointer 5 yields a
handle wrapping 5, and the null oracle yields MlxError::Init. -/
theorem mlx_new_init_error_iff_null_w :
    (Mlx.new okEnv).1 = .ok ⟨5⟩ ∧ (Mlx.new nullEnv).1 = .error .Init :=
  ⟨(mlx_new_init_error_iff_null okEnv).2.1 (by decide),
   (mlx_new_init_error_iff_null nullEnv).1.mpr (by decide)⟩

/-- C2: for every title without an interior null byte, Mlx::new_window fails
with MlxError::Window exactly when the native window-creation call returns a
null pointer, and on a non-null return succeeds with a window handle wrapping
that pointer. -/
theorem new_window_error_iff_null (env : NativeEnv) (mlx : Mlx)
    (size_x size_y : Int) (title : String)
    (h : containsNull title = false) :
    ((Mlx.new_window env mlx size_x size_y title).1 = .error .Window ↔
      env.newWindowRet mlx.mlx_ptr size_x size_y title = 0) ∧
    (env.newWindowRet mlx.mlx_ptr size_x size_y title ≠ 0 →
      (Mlx.new_window env mlx size_x size_y title).1 =
        .ok ⟨env.newWindowRet mlx.mlx_ptr size_x size_y title⟩) := by
  by_cases hp : env.newWindowRet mlx.mlx_ptr size_x size_y title = 0 <;>
    simp [Mlx.new_window, ffi.new_window, create_c_str, h, hp]

/-- Witness for C2: with the all-success oracle, creating a 1080x720 window
titled Fractol yields a handle wrapping pointer 7. -/
theorem new_window_error_iff_null_w :
    (Mlx.new_window okEnv ⟨5⟩ 1080 720 "Fractol").1 = .ok ⟨7⟩ :=
  (new_window_error_iff_null okEnv ⟨5⟩ 1080 720 "Fractol" (by decide)).2
    (by decide)

/-- C3: for every title with an interior null byte, Mlx::new_window returns
the encoding error MlxError::Any (not Window) with an empty native-call
trace, i.e. before the native window-creation call; the same pre-native
encoding check applies to the filename of Mlx::xpm_file_to_image. -/
theorem null_byte_title_encoding_error (env : NativeEnv) (mlx : Mlx)
    (size_x size_y : Int) (title filename : String)
    (ht : containsNull title = true) (hf : containsNull filename = true) :
    ((Mlx.new_window env mlx size_x size_y title).1 =
        .error (.Any ("Error creating string " ++ title)) ∧
      (Mlx.new_window env mlx size_x size_y title).2 = []) ∧
    ((Mlx.xpm_file_to_image env mlx filename).1 =
        .error (.Any ("Error creating string " ++ filename)) ∧
      (Mlx.xpm_file_to_image env mlx filename).2 = []) := by
  simp [Mlx.new_window, ffi.new_window, Mlx.xpm_file_to_image,
    ffi.xpm_file_to_image, create_c_str, ht, hf]

/-- Witness for C3 at a concrete title and filename holding a null byte. -/
theorem null_byte_title_encoding_error_w :
    ((Mlx.new_window okEnv ⟨5⟩ 1080 720 "a\x00b").1 =
        .error (.Any ("Error creating string " ++ "a\x00b")) ∧
      (Mlx.new_window okEnv ⟨5⟩ 1080 720 "a\x00b").2 = []) ∧
    ((Mlx.xpm_file_to_image okEnv ⟨5⟩ "c\x00d").1 =
        .error (.Any ("Error creating string " ++ "c\x00d")) ∧
      (Mlx.xpm_file_to_image okEnv ⟨5⟩ "c\x00d").2 = []) :=
  null_byte_title_encoding_error okEnv ⟨5⟩ 1080 720 "a\x00b" "c\x00d"
    (by decide) (by decide)

/-- C4: Mlx::string_put with text holding an interior null byte returns the
encoding error with an empty native-call trace (before any native call); for
text without one it performs exactly the native string-draw call and returns
Ok. -/
theorem string_put_encoding (mlx : Mlx) (window : MlxWindow)
    (x y color : Int) (s : String) :
    (containsNull s = true →
      (Mlx.string_put mlx window x y color s).1 =
        .error (.Any ("Error creating string " ++ s)) ∧
      (Mlx.string_put mlx window x y color s).2 = []) ∧
    (containsNull s = false →
      (Mlx.string_put mlx window x y color s).1 = .ok () ∧
      (Mlx.string_put mlx window x y color s).2 =
        [.stringPut mlx.mlx_ptr window.win_ptr x y color s]) := by
  constructor <;> intro h <;>
    simp [Mlx.string_put, ffi.string_put, create_c_str, h]

/-- Witness for C4: a text with a null byte fails before any native call,
and a clean text performs exactly the native draw call. -/
theorem string_put_encoding_w :
    ((Mlx.string_put ⟨5⟩ ⟨7⟩ 10 20 255 "a\x00b").1 =
        .error (.Any ("Error creating string " ++ "a\x00b")) ∧
      (Mlx.string_put ⟨5⟩ ⟨7⟩ 10 20 255 "a\x00b").2 = []) ∧
    ((Mlx.string_put ⟨5⟩ ⟨7⟩ 10 20 255 "hi").1 = .ok () ∧
      (Mlx.string_put ⟨5⟩ ⟨7⟩ 10 20 255 "hi").2 =
        [.stringPut 5 7 10 20 255 "hi"]) :=
  ⟨(string_put_encoding ⟨5⟩ ⟨7⟩ 10 20 255 "a\x00b").1 (by decide),
   (string_put_encoding ⟨5⟩ ⟨7⟩ 10 20 255 "hi").2 (by decide)⟩

/-- C5: for all positive dimensions, when the native image-create call and
the buffer query both return non-null, Mlx::new_image succeeds and the
returned handle records exactly the requested width and height. -/
theorem new_image_dims (env : NativeEnv) (mlx : Mlx) (w h : Int)
    (hw : 0 < w) (hh : 0 < h)
    (hp : env.newImageRet mlx.mlx_ptr w h ≠ 0)
    (ha : (env.getDataAddrRet (env.newImageRet mlx.mlx_ptr w h)).area ≠ 0) :
    (Mlx.new_image env mlx w h).1 =
      .ok (cachedImage env (env.newImageRet mlx.mlx_ptr w h) w h) ∧
    (cachedImage env (env.newImageRet mlx.mlx_ptr w h) w h).width = w ∧
    (cachedImage env (env.newImageRet mlx.mlx_ptr w h) w h).height = h := by
  refine ⟨?_, rfl, rfl⟩
  simp [Mlx.new_image, ffi.new_image, hp, MlxImage.new_of_area_ne env _ w h ha]

/-- Witness for C5 at the all-success oracle with dimensions 3 x 4. -/
theorem new_image_dims_w :
    (Mlx.new_image okEnv ⟨5⟩ 3 4).1 = .ok (cachedImage okEnv 9 3 4) ∧
    (cachedImage okEnv 9 3 4).width = 3 ∧
    (cachedImage okEnv 9 3 4).height = 4 :=
  new_image_dims okEnv ⟨5⟩ 3 4 (by decide) (by decide) (by decide) (by decide)

/-- C6: for every dimension pair, when the native image allocation returns a
null pointer Mlx::new_image returns a descriptive creation error; its message
is a concatenation in which the printed requested width and the printed
requested height both appear. -/
theorem new_image_null_error (env : NativeEnv) (mlx : Mlx) (w h : Int)
    (hp : env.newImageRet mlx.mlx_ptr w h = 0) :
    (Mlx.new_image env mlx w h).1 = .error (.Any (imageErrorMsg w h)) ∧
    imageErrorMsg w h =
      "Error creating image with " ++
        (toString w ++ (" width, " ++ (toString h ++ " height."))) := by
  constructor
  · simp [Mlx.new_image, ffi.new_image, hp]
  · simp [imageErrorMsg, String.append_assoc]

/-- Witness for C6: with the all-null oracle, requesting a 3 x 4 image fails
with the message naming 3 and 4. -/
theorem new_image_null_error_w :
    (Mlx.new_image nullEnv ⟨5⟩ 3 4).1 = .error (.Any (imageErrorMsg 3 4)) ∧
    imageErrorMsg 3 4 =
      "Error creating image with " ++
        (toString (3 : Int) ++ (" width, " ++ (toString (4 : Int) ++ " height."))) :=
  new_image_null_error nullEnv ⟨5⟩ 3 4 (by decide)

/-- C7: each of the three image constructors, whenever the native creation
step returns non-null, performs the buffer query exactly once; if the query
returns a non-null buffer the construction succeeds with the handle caching
the queried buffer address, bits_per_pixel, size_line and endianness, and if
the query returns a null buffer the construction fails with the descriptive
error, producing no handle. -/
theorem image_construction_caches (env : NativeEnv) (mlx : Mlx)
    (w h : Int) (xd : List String) (fname : String)
    (hf : containsNull fname = false) :
    (env.newImageRet mlx.mlx_ptr w h ≠ 0 →
      ((env.getDataAddrRet (env.newImageRet mlx.mlx_ptr w h)).area ≠ 0 →
        (Mlx.new_image env mlx w h).1 =
          .ok (cachedImage env (env.newImageRet mlx.mlx_ptr w h) w h)) ∧
      ((env.getDataAddrRet (env.newImageRet mlx.mlx_ptr w h)).area = 0 →
        (Mlx.new_image env mlx w h).1 =
          .error (.Any "Error when trying to access image data")) ∧
      (Mlx.new_image env mlx w h).2.filter NativeCall.isDataQuery =
        [.getDataAddr (env.newImageRet mlx.mlx_ptr w h)]) ∧
    ((env.xpmToImageRet mlx.mlx_ptr xd).ptr ≠ 0 →
      ((env.getDataAddrRet (env.xpmToImageRet mlx.mlx_ptr xd).ptr).area ≠ 0 →
        (Mlx.xpm_to_image env mlx xd).1 =
          .ok (cachedImage env (env.xpmToImageRet mlx.mlx_ptr xd).ptr
            (env.xpmToImageRet mlx.mlx_ptr xd).width
            (env.xpmToImageRet mlx.mlx_ptr xd).height)) ∧
      ((env.getDataAddrRet (env.xpmToImageRet mlx.mlx_ptr xd).ptr).area = 0 →
        (Mlx.xpm_to_image env mlx xd).1 =
          .error (.Any "Error when trying to access image data")) ∧
      (Mlx.xpm_to_image env mlx xd).2.filter NativeCall.isDataQuery =
        [.getDataAddr (env.xpmToImageRet mlx.mlx_ptr xd).ptr]) ∧
    ((env.xpmFileToImageRet mlx.mlx_ptr fname).ptr ≠ 0 →
      ((env.getDataAddrRet (env.xpmFileToImageRet mlx.mlx_ptr fname).ptr).area ≠ 0 →
        (Mlx.xpm_file_to_image env mlx fname).1 =
          .ok (cachedImage env (env.xpmFileToImageRet mlx.mlx_ptr fname).ptr
            (env.xpmFileToImageRet mlx.mlx_ptr fname).width
            (env.xpmFileToImageRet mlx.mlx_ptr fname).height)) ∧
      ((env.getDataAddrRet (env.xpmFileToImageRet mlx.mlx_ptr fname).ptr).area = 0 →
        (Mlx.xpm_file_to_image env mlx fname).1 =
          .error (.Any "Error when trying to access image data")) ∧
      (Mlx.xpm_file_to_image env mlx fname).2.filter NativeCall.isDataQuery =
        [.getDataAddr (env.xpmFileToImageRet mlx.mlx_ptr fname).ptr]) := by
  refine ⟨fun hp => ?_, fun hp => ?_, fun hp => ?_⟩
  · by_cases ha : (env.getDataAddrRet (env.newImageRet mlx.mlx_ptr w h)).area = 0 <;>
      simp [Mlx.new_image, ffi.new_image, hp, ha,
        MlxImage.new_of_area_ne env _ w h, MlxImage.new_of_area_eq env _ w h,
        NativeCall.isDataQuery]
  · by_cases ha : (env.getDataAddrRet (env.xpmToImageRet mlx.mlx_ptr xd).ptr).area = 0 <;>
      simp [Mlx.xpm_to_image, ffi.xpm_to_image, hp, ha,
        MlxImage.new_of_area_ne, MlxImage.new_of_area_eq,
        NativeCall.isDataQuery]
  · by_cases ha : (env.getDataAddrRet (env.xpmFileToImageRet mlx.mlx_ptr fname).ptr).area = 0 <;>
      simp [Mlx.xpm_file_to_image, ffi.xpm_file_to_image, create_c_str, hf, hp, ha,
        MlxImage.new_of_area_ne, MlxImage.new_of_area_eq,
        NativeCall.isDataQuery]

/-- Witness for C7 at the all-success oracle: the three constructors succeed
with handles caching the queried attributes, and each trace holds exactly one
buffer-query call. -/
theorem image_construction_caches_w :
    (Mlx.new_image okEnv ⟨5⟩ 3 4).1 = .ok (cachedImage okEnv 9 3 4) ∧
    (Mlx.new_image okEnv ⟨5⟩ 3 4).2.filter NativeCall.isDataQuery =
      [.getDataAddr 9] ∧
    (Mlx.xpm_to_image okEnv ⟨5⟩ ["3 3 1 1"]).1 = .ok (cachedImage okEnv 13 8 8) ∧
    (Mlx.xpm_to_image okEnv ⟨5⟩ ["3 3 1 1"]).2.filter NativeCall.isDataQuery =
      [.getDataAddr 13] ∧
    (Mlx.xpm_file_to_image okEnv ⟨5⟩ "img.xpm").1 = .ok (cachedImage okEnv 15 8 8) ∧
    (Mlx.xpm_file_to_image okEnv ⟨5⟩ "img.xpm").2.filter NativeCall.isDataQuery =
      [.getDataAddr 15] := by
  have h := image_construction_caches okEnv ⟨5⟩ 3 4 ["3 3 1 1"] "img.xpm" (by decide)
  exact ⟨(h.1 (by decide)).1 (by decide), (h.1 (by decide)).2.2,
    (h.2.1 (by decide)).1 (by decide), (h.2.1 (by decide)).2.2,
    (h.2.2 (by decide)).1 (by decide), (h.2.2 (by decide)).2.2⟩

/-- C8: MlxImage::write_to stores exactly the given byte at the cached buffer
address plus the given offset — any offset, no bounds check — and leaves every
other address unchanged; at offset 0 it sets the first byte of the buffer. -/
theorem write_to_single_byte (img : MlxImage) (offset : Int) (value : Nat)
    (mem : Mem) (hv : value < 256) :
    (img.write_to offset value mem) (img.area_start + offset) = value ∧
    (∀ a : Int, a ≠ img.area_start + offset →
      (img.write_to offset value mem) a = mem a) ∧
    (img.write_to 0 value mem) img.area_start = value := by
  refine ⟨?_, fun a ha => ?_, ?_⟩
  · simp [MlxImage.write_to, Nat.mod_eq_of_lt hv]
  · simp [MlxImage.write_to, ha]
  · simp [MlxImage.write_to, Nat.mod_eq_of_lt hv]

/-- Witness for C8 on a concrete image, offset and memory: the targeted byte
takes the written value, a neighbouring byte is unchanged, and offset 0 sets
the first byte. -/
theorem write_to_single_byte_w :
    (imgA.write_to 3 42 memZero) (imgA.area_start + 3) = 42 ∧
    (imgA.write_to 3 42 memZero) (imgA.area_start + 4) =
      memZero (imgA.area_start + 4) ∧
    (imgA.write_to 0 7 memZero) imgA.area_start = 7 :=
  ⟨(write_to_single_byte imgA 3 42 memZero (by decide)).1,
   (write_to_single_byte imgA 3 42 memZero (by decide)).2.1 _ (by decide),
   (write_to_single_byte imgA 0 7 memZero (by decide)).2.2⟩

/-- C9: Mlx::destroy_window and Mlx::destroy_image take the handle by shared
reference and only perform the fire-and-forget native destroy call on the
wrapped pointers: the caller-held handle value after the call is the input
value unchanged — wrapped pointer and, for images, every cached field. -/
theorem destroy_preserves_handles (mlx : Mlx) (window : MlxWindow)
    (image : MlxImage) :
    (Mlx.destroy_window mlx window).1 = window ∧
    (Mlx.destroy_window mlx window).1.win_ptr = window.win_ptr ∧
    (Mlx.destroy_window mlx window).2 =
      [.destroyWindow mlx.mlx_ptr window.win_ptr] ∧
    (Mlx.destroy_image mlx image).1 = image ∧
    (Mlx.destroy_image mlx image).1.img_ptr = image.img_ptr ∧
    (Mlx.destroy_image mlx image).1.width = image.width ∧
    (Mlx.destroy_image mlx image).1.height = image.height ∧
    (Mlx.destroy_image mlx image).1.bits_per_pixel = image.bits_per_pixel ∧
    (Mlx.destroy_image mlx image).1.size_line = image.size_line ∧
    (Mlx.destroy_image mlx image).1.endian = image.endian ∧
    (Mlx.destroy_image mlx image).2 =
      [.destroyImage mlx.mlx_ptr image.img_ptr] :=
  ⟨rfl, rfl, rfl, rfl, rfl, rfl, rfl, rfl, rfl, rfl, rfl⟩

/-- Helper: starting the julia loop from any counter of at least 1, the final
counter is still at least 1 — the guard stops the loop before the counter can
reach 0. -/
theorem juliaLoop_snd_ge_one {Z : Type} (inS : Z → Bool) (step : Z → Z) :
    ∀ (i : Nat) (z : Z), 1 ≤ i → 1 ≤ (juliaLoop inS step i z).2 := by
  intro i
  induction i with
  | zero => intro z hz; omega
  | succ n ih =>
    intro z _
    rcases n with _ | m
    · simp [juliaLoop]
    · by_cases h : inS z
      · have hx := ih (step z) (by omega)
        simpa [juliaLoop, h] using hx
      · simp [juliaLoop, h]

/-- C10: the julia iteration of the demo terminates for every escape test,
step function and start state (so in particular for every pixel coordinate
and image handle feeding the f32 seed): starting from MAX_ITERATIONS = 110
the counter decreases by exactly 1 per iteration, the guard keeps it at least
1, so the loop body runs at most 109 times, and the function returns a color
packed from channel bytes below 256, hence a value below 2 ^ 32. -/
theorem julia_terminates_bounded {Z : Type} (inS : Z → Bool) (step : Z → Z)
    (z0 : Z) :
    MAX_ITERATIONS = 110 ∧
    1 ≤ (juliaLoop inS step MAX_ITERATIONS z0).2 ∧
    juliaIterations inS step MAX_ITERATIONS z0 ≤ 109 ∧
    (∀ (i : Nat) (z : Z), inS z = true →
      juliaLoop inS step (i + 2) z = juliaLoop inS step (i + 1) (step z)) ∧
    julia inS step z0 =
      ((((juliaLoop inS step MAX_ITERATIONS z0).2 <<< 3) % 256) <<< 16 |||
        (((juliaLoop inS step MAX_ITERATIONS z0).2 <<< 5) % 256) <<< 8) |||
        ((juliaLoop inS step MAX_ITERATIONS z0).2 * 4) % 256 ∧
    julia inS step z0 < 2 ^ 32 := by
  have h1 : 1 ≤ (juliaLoop inS step MAX_ITERATIONS z0).2 :=
    juliaLoop_snd_ge_one inS step MAX_ITERATIONS z0 (by norm_num [MAX_ITERATIONS])
  refine ⟨rfl, h1, ?_, fun i z hz => by simp [juliaLoop, hz], rfl, ?_⟩
  · have h2 : juliaIterations inS step MAX_ITERATIONS z0 =
        110 - (juliaLoop inS step MAX_ITERATIONS z0).2 := rfl
    omega
  · show ((((juliaLoop inS step MAX_ITERATIONS z0).2 <<< 3) % 256) <<< 16 |||
        (((juliaLoop inS step MAX_ITERATIONS z0).2 <<< 5) % 256) <<< 8) |||
        ((juliaLoop inS step MAX_ITERATIONS z0).2 * 4) % 256 < 2 ^ 32
    have hr : ((juliaLoop inS step MAX_ITERATIONS z0).2 <<< 3) % 256 < 256 :=
      Nat.mod_lt _ (by norm_num)
    have hg : ((juliaLoop inS step MAX_ITERATIONS z0).2 <<< 5) % 256 < 256 :=
      Nat.mod_lt _ (by norm_num)
    have hb : (juliaLoop inS step MAX_ITERATIONS z0).2 * 4 % 256 < 2 ^ 32 := by
      have := Nat.mod_lt ((juliaLoop inS step MAX_ITERATIONS z0).2 * 4)
        (show 0 < 256 by norm_num)
      omega
    refine Nat.bitwise_lt (Nat.bitwise_lt ?_ ?_) hb
    · rw [Nat.shiftLeft_eq]
      calc (((juliaLoop inS step MAX_ITERATIONS z0).2 <<< 3) % 256) * 2 ^ 16
          ≤ 255 * 2 ^ 16 := by
            exact Nat.mul_le_mul_right _ (by omega)
        _ < 2 ^ 32 := by norm_num
    · rw [Nat.shiftLeft_eq]
      calc (((juliaLoop inS step MAX_ITERATIONS z0).2 <<< 5) % 256) * 2 ^ 8
          ≤ 255 * 2 ^ 8 := by
            exact Nat.mul_le_mul_right _ (by omega)
        _ < 2 ^ 32 := by norm_num

/-- Witness for C10 at a concrete instantiation: with an always-true escape
test the loop runs down to counter 1, performing exactly 109 iterations, and
the color stays below 2 ^ 32. -/
theorem julia_terminates_bounded_w :
    MAX_ITERATIONS = 110 ∧
    1 ≤ (juliaLoop (fun _ : Unit => true) id MAX_ITERATIONS ()).2 ∧
    juliaIterations (fun _ : Unit => true) id MAX_ITERATIONS () ≤ 109 ∧
    julia (fun _ : Unit => true) id () < 2 ^ 32 := by
  have h := julia_terminates_bounded (fun _ : Unit => true) id ()
  exact ⟨h.1, h.2.1, h.2.2.1, h.2.2.2.2.2⟩

end Fractol
